import Mathlib

/-!
Shallow embedding of the sts-svc custodial signer (Go sources
`key_store.go`, `server.go`): the `SecureKeyStore` vault, the
`signerService` operations `GenerateKey` and `SignTransaction`, and the
request-coordination logic of `handleTxSign`.

Modelling conventions:
* byte slices are `List Nat` (each element a byte value);
* the Go map `keys map[string]ed25519.PrivateKey` is the extensional map
  `String → Option Bytes`;
* Go errors are modelled by `Except String` carrying the source error
  strings, and the distinct `return` sites of `SignTransaction` are
  classified by the inductive `SignErr`;
* the signing primitive `ed25519.Sign` is a parameter
  `edSign : Bytes → Bytes → Except String Bytes`, whose `.error` case
  models a Go panic raised inside the primitive (the only panic source
  in the signing sequence); the `defer`/`recover` block of
  `SignTransaction` is the handler that totalises this exception;
* the goroutine/channel/deadline machinery of `handleTxSign` is a small
  labelled transition system `CoordStep` over `CoordState`.
-/

namespace StsSvc

abbrev Bytes := List Nat

/-- The `SecureKeyStore` contents: the Go map from key id to private key. -/
abbrev Vault := String → Option Bytes

def emptyVault : Vault := fun _ => none

/-- `SecureKeyStore.Store`: `s.keys[id] = key` (insert or overwrite). -/
def Store (v : Vault) (id : String) (key : Bytes) : Vault :=
  fun i => if i = id then some key else v i

/-- `SecureKeyStore.Get`: map lookup; `errors.New("key not found")` when absent. -/
def Get (v : Vault) (id : String) : Except String Bytes :=
  match v id with
  | some pk => .ok pk
  | none => .error "key not found"

/-- The in-place loop `for i := range pk { pk[i] = 0 }` of `Zerorize`: the
entry stored under `id` has every byte overwritten with zero, other
entries untouched.  This is the intermediate vault state between the
overwrite loop and the `delete` call. -/
def zerorizeOverwrite (v : Vault) (id : String) : Vault :=
  fun i => if i = id then (v id).map (fun pk => pk.map (fun _ => 0)) else v i

/-- The `delete(s.keys, id)` call. -/
def deleteKey (v : Vault) (id : String) : Vault :=
  fun i => if i = id then none else v i

/-- `SecureKeyStore.Zerorize`: fails with `errors.New("Key not found")` when
the id is absent; otherwise overwrites every byte of the stored key with
zero, then removes the entry (one critical section). -/
def Zerorize (v : Vault) (id : String) : Except String Vault :=
  match v id with
  | none => .error "Key not found"
  | some _ => .ok (deleteKey (zerorizeOverwrite v id) id)

structure Account where
  PublicKey : String
  deriving Repr, DecidableEq

structure TransactionRequest where
  KeyID : String
  UnsignedTxData : String
  deriving Repr, DecidableEq

structure TransactionResult where
  KeyID : String := ""
  Signature : String := ""
  BroadcastStatus : String := ""
  Error : String := ""
  deriving Repr, DecidableEq

/-- One hex digit, lower case, as produced by `encoding/hex`. -/
def hexDigitChar (n : Nat) : Char :=
  if n < 10 then Char.ofNat (48 + n) else Char.ofNat (97 + (n - 10))

def hexEncodeChars : Bytes → List Char
  | [] => []
  | b :: rest => hexDigitChar (b / 16) :: hexDigitChar (b % 16) :: hexEncodeChars rest

/-- `hex.EncodeToString`: two lower-case hex digits per byte. -/
def hexEncodeToString (bs : Bytes) : String := String.mk (hexEncodeChars bs)

/-- Value of one character of the standard base64 alphabet. -/
def b64Index (c : Char) : Option Nat :=
  if 'A' ≤ c ∧ c ≤ 'Z' then some (c.toNat - 65)
  else if 'a' ≤ c ∧ c ≤ 'z' then some (c.toNat - 97 + 26)
  else if '0' ≤ c ∧ c ≤ '9' then some (c.toNat - 48 + 52)
  else if c = '+' then some 62
  else if c = '/' then some 63
  else none

/-- Decode a run of 4-character base64 quanta; `=` padding is legal only in
the final quantum, in the forms `xx==` (one byte) and `xxx=` (two bytes),
as accepted by `base64.StdEncoding`. -/
def b64DecodeGroups : List Char → Option Bytes
  | [] => some []
  | a :: b :: c :: d :: rest =>
    match b64Index a, b64Index b with
    | some va, some vb =>
      if c = '=' then
        if d = '=' ∧ rest = [] then some [va * 4 + vb / 16]
        else none
      else
        match b64Index c with
        | some vc =>
          if d = '=' then
            if rest = [] then some [va * 4 + vb / 16, (vb % 16) * 16 + vc / 4]
            else none
          else
            match b64Index d with
            | some vd =>
              match b64DecodeGroups rest with
              | some tail =>
                some ((va * 4 + vb / 16) :: ((vb % 16) * 16 + vc / 4) ::
                      ((vc % 4) * 64 + vd) :: tail)
              | none => none
            | none => none
        | none => none
    | _, _ => none
  | _ => none

/-- `base64.StdEncoding.DecodeString`: carriage returns and newlines are
ignored, the rest must be correctly padded 4-character quanta. -/
def base64DecodeString (s : String) : Option Bytes :=
  b64DecodeGroups (s.data.filter (fun c => c != '\r' && c != '\n'))

def b64Alphabet : List Char :=
  "ABCDEFGHIJKLMNOPQRSTUVWXYZabcdefghijklmnopqrstuvwxyz0123456789+/".data

def b64CharOf (n : Nat) : Char := b64Alphabet.getD n 'A'

def b64EncodeGroups : Bytes → List Char
  | [] => []
  | [b1] => [b64CharOf (b1 / 4), b64CharOf ((b1 % 4) * 16), '=', '=']
  | [b1, b2] =>
    [b64CharOf (b1 / 4), b64CharOf ((b1 % 4) * 16 + b2 / 16),
     b64CharOf ((b2 % 16) * 4), '=']
  | b1 :: b2 :: b3 :: rest =>
    b64CharOf (b1 / 4) :: b64CharOf ((b1 % 4) * 16 + b2 / 16) ::
    b64CharOf ((b2 % 16) * 4 + b3 / 64) :: b64CharOf (b3 % 64) ::
    b64EncodeGroups rest

/-- `base64.StdEncoding.EncodeToString`. -/
def base64EncodeToString (bs : Bytes) : String := String.mk (b64EncodeGroups bs)

/-- Classification of the `return` sites of `signerService.SignTransaction`
(the spec error taxonomy: `ValidationError`, `DecodeError`,
`NotFoundError`, erase-step `InternalError`, recovered-panic
`InternalError`). -/
inductive SignErr where
  | validationError
  | decodeError
  | notFoundError
  | eraseError
  | panicError
  deriving Repr, DecidableEq

/-- The Go error string returned at each site (wrapped causes inlined; the
byte position that `base64.CorruptInputError` reports is elided). -/
def errMessage : SignErr → String
  | .validationError => "KeyID and unsigned TX data cannot be empty"
  | .decodeError => "Invalid base64 encoding of tx data: illegal base64 data"
  | .notFoundError => "key retrieval failed w/ error: key not found"
  | .eraseError => "error clearing key from mem: Key not found"
  | .panicError => "Signing failed due to internal error"

/-- `GenerateKey`, parameterised by the key pair drawn from the
cryptographic random source (`ed25519.GenerateKey(rand.Reader)`): the id
is `hex.EncodeToString(pubKey)`, the private key is stored under it, and
the returned `Account` carries the id. -/
def GenerateKey (pubKey privKey : Bytes) (v : Vault) : Account × Vault :=
  let keyId := hexEncodeToString pubKey
  (⟨keyId⟩, Store v keyId privKey)

/-- The body of `SignTransaction` between the `defer`/`recover` prologue and
the function end: validation, base64 decode, `Get`, `ed25519.Sign`
(the `edSign` parameter; its `.error` case is a panic), `Zerorize`,
result assembly.  A panic aborts with the panic value, the named return
`result` as assigned so far, and the vault state at the panic point. -/
def signTransactionBody (edSign : Bytes → Bytes → Except String Bytes)
    (v : Vault) (req : TransactionRequest) :
    Except (String × TransactionResult × Vault)
      (TransactionResult × Option SignErr × Vault) :=
  let result : TransactionResult := { KeyID := req.KeyID }
  if req.KeyID = "" ∨ req.UnsignedTxData = "" then
    .ok (result, some .validationError, v)
  else
    match base64DecodeString req.UnsignedTxData with
    | none => .ok (result, some .decodeError, v)
    | some rawTxData =>
      match Get v req.KeyID with
      | .error _ => .ok (result, some .notFoundError, v)
      | .ok privKey =>
        match edSign privKey rawTxData with
        | .error p => .error (p, result, v)
        | .ok sig =>
          match Zerorize v req.KeyID with
          | .error _ => .ok (result, some .eraseError, v)
          | .ok v2 =>
            .ok ({ result with
                    Signature := base64EncodeToString sig,
                    BroadcastStatus := "Signed and Ready" }, none, v2)

/-- `signerService.SignTransaction`: the body guarded by the deferred
`recover()` handler, which turns any panic into the fixed client message
`"Internal Signing Error, Try again later"` on `result.Error` and the
generic Go error `"Signing failed due to internal error"`
(classified `.panicError`), leaving the other named-return fields as
they were at the panic point.  Returns (result, error, vault). -/
def SignTransaction (edSign : Bytes → Bytes → Except String Bytes)
    (v : Vault) (req : TransactionRequest) :
    TransactionResult × Option SignErr × Vault :=
  match signTransactionBody edSign v req with
  | .ok out => out
  | .error (_p, resultAtPanic, pv) =>
    ({ resultAtPanic with Error := "Internal Signing Error, Try again later" },
     some .panicError, pv)

/-- The glue in the `handleTxSign` goroutine:
`res, err := s.Service.SignTransaction(ctx, req); if err != nil { res.Error = err.Error() }`. -/
def deliverResult (res : TransactionResult) (err : Option SignErr) : TransactionResult :=
  match err with
  | some e => { res with Error := errMessage e }
  | none => res

/-- The two arms of the waiting `select` in `handleTxSign`: a result arrived
on `resultChan`, or `ctx.Done()` fired first. -/
inductive SignOutcome where
  | completed (res : TransactionResult)
  | timedOut
  deriving Repr, DecidableEq

structure HttpResponse where
  status : Nat
  body : String
  deriving Repr, DecidableEq

/-- `json.NewEncoder(w).Encode(res)` on a `TransactionResult` (field tags
`keyId`, `signature`, `broadcaststatus`, `error,omitempty`). -/
def jsonEncodeResult (res : TransactionResult) : String :=
  "\x7b\"keyId\":\"" ++ res.KeyID ++ "\",\"signature\":\"" ++ res.Signature ++
  "\",\"broadcaststatus\":\"" ++ res.BroadcastStatus ++ "\"" ++
  (if res.Error = "" then "" else ",\"error\":\"" ++ res.Error ++ "\"") ++ "\x7d"

/-- The response mapping of `handleTxSign`: a delivered result with a
non-empty `Error` gets `http.StatusBadRequest` (400); a clean result is
JSON-encoded with status 200; the `ctx.Done()` arm writes
`http.StatusGatewayTimeout` (504) with the fixed timeout body (the
stray `%!(EXTRA int=504)` comes from the surplus `Sprintf` argument in
the source). -/
def handleTxSign : SignOutcome → HttpResponse
  | .timedOut =>
    { status := 504,
      body := "\x7b\"error\": \"Tx signing request timedout\"\x7d%!(EXTRA int=504)" }
  | .completed res =>
    if res.Error ≠ "" then
      { status := 400, body := "\x7b\"error\": \"" ++ res.Error ++ "\"\x7d" }
    else
      { status := 200, body := jsonEncodeResult res }

/-- End-to-end non-timeout path of one `handleTxSign` request: run
`SignTransaction`, copy a non-nil error onto the result, respond. -/
def txSignPipeline (edSign : Bytes → Bytes → Except String Bytes)
    (v : Vault) (req : TransactionRequest) : HttpResponse × Vault :=
  match SignTransaction edSign v req with
  | (res, err, v2) => (handleTxSign (.completed (deliverResult res err)), v2)

/-! ### Deadline / handoff coordination (`handleTxSign` concurrency)

The goroutine runs `SignTransaction`, then
`select { case resultChan <- res: ...; case <-ctx.Done(): ... }`;
the handler runs `select { case res := <-resultChan: ...; case <-ctx.Done(): ... }`
with `ctx, cancel := context.WithTimeout(r.Context(), 5*time.Second)`.
We model the two execution units and the deadline as a labelled
transition system; `resultChan` is unbuffered, so the handoff is a
rendezvous step. -/

/-- The signing goroutine: still executing `SignTransaction`; at its
`select`, attempting the handoff; exited (result sent or abandoned). -/
inductive ProducerState where
  | running
  | handing
  | finished
  deriving Repr, DecidableEq

/-- The handler: blocked at its `select`; received the result; wrote the
gateway-timeout response. -/
inductive WaiterState where
  | waiting
  | gotResult (res : TransactionResult)
  | timedOutResp
  deriving Repr, DecidableEq

structure CoordState where
  ctxDone : Bool
  producer : ProducerState
  waiter : WaiterState
  deriving Repr, DecidableEq

/-- Initial state of one request: deadline pending, goroutine launched,
handler waiting. -/
def coordInit : CoordState :=
  { ctxDone := false, producer := .running, waiter := .waiting }

/-- One step of the coordination protocol for a request whose signing work
produces the delivered result `r`. -/
inductive CoordStep (r : TransactionResult) : CoordState → CoordState → Prop where
  | deadline (s : CoordState) (h : s.ctxDone = false) :
      CoordStep r s { s with ctxDone := true }
  | finishWork (s : CoordState) (h : s.producer = .running) :
      CoordStep r s { s with producer := .handing }
  | handoff (s : CoordState) (hp : s.producer = .handing)
      (hw : s.waiter = .waiting) :
      CoordStep r s { s with producer := .finished, waiter := .gotResult r }
  | abandonSend (s : CoordState) (hp : s.producer = .handing)
      (hd : s.ctxDone = true) :
      CoordStep r s { s with producer := .finished }
  | timeoutResp (s : CoordState) (hw : s.waiter = .waiting)
      (hd : s.ctxDone = true) :
      CoordStep r s { s with waiter := .timedOutResp }

/-- States reachable from `coordInit`. -/
inductive CoordReachable (r : TransactionResult) : CoordState → Prop where
  | init : CoordReachable r coordInit
  | step (s s2 : CoordState) :
      CoordReachable r s → CoordStep r s s2 → CoordReachable r s2

/-! ### Concrete instances used by witnesses -/

/-- Stand-in signing primitive that always succeeds with a 64-byte
signature (Ed25519 signatures are 64 bytes). -/
def edSignZeros : Bytes → Bytes → Except String Bytes :=
  fun _ _ => .ok (List.replicate 64 0)

/-- Stand-in signing primitive that always panics (models a nil
dereference inside `ed25519.Sign`). -/
def edSignPanicDemo : Bytes → Bytes → Except String Bytes :=
  fun _ _ => .error "runtime error: invalid memory address or nil pointer dereference"

def demoKey : Bytes := [1, 2, 3]

def demoVault : Vault := Store emptyVault "6b31" demoKey

def demoReq : TransactionRequest := ⟨"6b31", "dGVzdA=="⟩

def resDefault : TransactionResult := {}

/-! ## Helper lemmas -/

theorem hexEncodeChars_length (bs : Bytes) :
    (hexEncodeChars bs).length = 2 * bs.length := by
  induction bs with
  | nil => simp [hexEncodeChars]
  | cons b rest ih => simp [hexEncodeChars, ih]; ring

theorem hexEncodeToString_length (bs : Bytes) :
    (hexEncodeToString bs).length = 2 * bs.length := by
  show (hexEncodeChars bs).length = 2 * bs.length
  exact hexEncodeChars_length bs

theorem hexEncodeToString_ne_empty (bs : Bytes) (h : bs ≠ []) :
    hexEncodeToString bs ≠ "" := by
  cases bs with
  | nil => exact absurd rfl h
  | cons b rest =>
    intro he
    have hd := congrArg String.data he
    simp [hexEncodeToString, hexEncodeChars] at hd

theorem errMessage_ne_empty (e : SignErr) : errMessage e ≠ "" := by
  cases e <;> decide

theorem body_eq_validation (edSign : Bytes → Bytes → Except String Bytes)
    (v : Vault) (req : TransactionRequest)
    (hval : req.KeyID = "" ∨ req.UnsignedTxData = "") :
    signTransactionBody edSign v req =
      .ok ({ KeyID := req.KeyID }, some .validationError, v) := by
  simp [signTransactionBody, hval]

theorem body_eq_decode (edSign : Bytes → Bytes → Except String Bytes)
    (v : Vault) (req : TransactionRequest)
    (hval : ¬(req.KeyID = "" ∨ req.UnsignedTxData = ""))
    (hdec : base64DecodeString req.UnsignedTxData = none) :
    signTransactionBody edSign v req =
      .ok ({ KeyID := req.KeyID }, some .decodeError, v) := by
  simp [signTransactionBody, hval, hdec]

theorem body_eq_notfound (edSign : Bytes → Bytes → Except String Bytes)
    (v : Vault) (req : TransactionRequest) (raw : Bytes)
    (hval : ¬(req.KeyID = "" ∨ req.UnsignedTxData = ""))
    (hdec : base64DecodeString req.UnsignedTxData = some raw)
    (hget : v req.KeyID = none) :
    signTransactionBody edSign v req =
      .ok ({ KeyID := req.KeyID }, some .notFoundError, v) := by
  simp [signTransactionBody, Get, hval, hdec, hget]

theorem body_eq_panic (edSign : Bytes → Bytes → Except String Bytes)
    (v : Vault) (req : TransactionRequest) (raw pk : Bytes) (p : String)
    (hval : ¬(req.KeyID = "" ∨ req.UnsignedTxData = ""))
    (hdec : base64DecodeString req.UnsignedTxData = some raw)
    (hget : v req.KeyID = some pk)
    (hsign : edSign pk raw = .error p) :
    signTransactionBody edSign v req =
      .error (p, { KeyID := req.KeyID }, v) := by
  simp [signTransactionBody, Get, hval, hdec, hget, hsign]

theorem body_eq_success (edSign : Bytes → Bytes → Except String Bytes)
    (v : Vault) (req : TransactionRequest) (raw pk sig : Bytes)
    (hval : ¬(req.KeyID = "" ∨ req.UnsignedTxData = ""))
    (hdec : base64DecodeString req.UnsignedTxData = some raw)
    (hget : v req.KeyID = some pk)
    (hsign : edSign pk raw = .ok sig) :
    signTransactionBody edSign v req =
      .ok ({ KeyID := req.KeyID, Signature := base64EncodeToString sig,
             BroadcastStatus := "Signed and Ready" }, none,
           deleteKey (zerorizeOverwrite v req.KeyID) req.KeyID) := by
  simp [signTransactionBody, Get, Zerorize, hval, hdec, hget, hsign]

theorem signTransaction_shape (edSign : Bytes → Bytes → Except String Bytes)
    (v : Vault) (req : TransactionRequest) :
    (SignTransaction edSign v req).1.KeyID = req.KeyID ∧
    ((SignTransaction edSign v req).2.1 = none →
       (SignTransaction edSign v req).1.Error = "") ∧
    ((SignTransaction edSign v req).2.1 ≠ none →
       (SignTransaction edSign v req).1.Signature = "") := by
  by_cases hval : req.KeyID = "" ∨ req.UnsignedTxData = ""
  · simp [SignTransaction, body_eq_validation edSign v req hval]
  · cases hdec : base64DecodeString req.UnsignedTxData with
    | none => simp [SignTransaction, body_eq_decode edSign v req hval hdec]
    | some raw =>
      cases hget : v req.KeyID with
      | none => simp [SignTransaction, body_eq_notfound edSign v req raw hval hdec hget]
      | some pk =>
        cases hsign : edSign pk raw with
        | error p =>
          simp [SignTransaction, body_eq_panic edSign v req raw pk p hval hdec hget hsign]
        | ok sig =>
          simp [SignTransaction, body_eq_success edSign v req raw pk sig hval hdec hget hsign]

/-! ## Claim theorems -/

/-- C4: for every request in which `keyId` or `payload` is empty,
`SignTransaction` fails with the validation error and returns the vault
unchanged; the outcome is computed before any vault access (the returned
triple does not depend on any vault entry — the vault appears in the
result only as the unchanged state). -/
theorem C4_validation_before_vault
    (edSign : Bytes → Bytes → Except String Bytes)
    (v : Vault) (req : TransactionRequest)
    (h : req.KeyID = "" ∨ req.UnsignedTxData = "") :
    SignTransaction edSign v req =
      ({ KeyID := req.KeyID }, some SignErr.validationError, v) := by
  simp [SignTransaction, body_eq_validation edSign v req h]

/-- Witness for C4 at the concrete request with empty key id. -/
theorem C4_validation_before_vault_witness :
    SignTransaction edSignZeros emptyVault ⟨"", "dGVzdA=="⟩ =
      ({ KeyID := "" }, some SignErr.validationError, emptyVault) :=
  C4_validation_before_vault edSignZeros emptyVault ⟨"", "dGVzdA=="⟩ (Or.inl rfl)

/-- C5 as stated is false: with an empty `keyId` and a non-base64 payload,
`SignTransaction` fails with the validation error, not the decode error
(validation runs first). -/
theorem C5_decode_cex :
    base64DecodeString "%%%%" = none ∧
    (SignTransaction edSignZeros emptyVault ⟨"", "%%%%"⟩).2.1 =
      some SignErr.validationError ∧
    some SignErr.validationError ≠ some SignErr.decodeError :=
  ⟨by decide, by decide, by decide⟩

/-- C5 (amended): for every request with non-empty `keyId` whose payload is
not valid base64, `SignTransaction` fails with the decode error and
returns the vault unchanged (the target entry and every other entry). -/
theorem C5_decode_failure_frame
    (edSign : Bytes → Bytes → Except String Bytes)
    (v : Vault) (req : TransactionRequest)
    (hkey : req.KeyID ≠ "")
    (hdec : base64DecodeString req.UnsignedTxData = none) :
    SignTransaction edSign v req =
      ({ KeyID := req.KeyID }, some SignErr.decodeError, v) := by
  have hpay : req.UnsignedTxData ≠ "" := by
    intro he
    rw [he] at hdec
    exact absurd hdec (by decide)
  simp [SignTransaction, body_eq_decode edSign v req (by simp [hkey, hpay]) hdec]

/-- Witness for C5 (amended) at a concrete stored key and `"%%%%"` payload. -/
theorem C5_decode_failure_frame_witness :
    SignTransaction edSignZeros demoVault ⟨"6b31", "%%%%"⟩ =
      ({ KeyID := "6b31" }, some SignErr.decodeError, demoVault) :=
  C5_decode_failure_frame edSignZeros demoVault ⟨"6b31", "%%%%"⟩
    (by decide) (by decide)

/-- C6: for every id not currently stored in the vault, `Get` and
`Zerorize` (the erase operation) both fail with their key-not-found
errors; neither returns a modified vault (`Get` never modifies, and
`Zerorize` yields a new vault only in its `.ok` case). -/
theorem C6_absent_id_get_erase (v : Vault) (id : String) (h : v id = none) :
    Get v id = .error "key not found" ∧
    Zerorize v id = .error "Key not found" := by
  constructor <;> simp [Get, Zerorize, h]

/-- Witness for C6 on the empty vault. -/
theorem C6_absent_id_get_erase_witness :
    Get emptyVault "missing" = .error "key not found" ∧
    Zerorize emptyVault "missing" = .error "Key not found" :=
  C6_absent_id_get_erase emptyVault "missing" rfl

/-- C7: for every vault, id and key, `Store(id, k)` followed by the erase
succeeds, the pre-removal intermediate state maps the id to a key of the
same length with every byte overwritten by zero, and `Get(id)` on the
resulting vault fails with the key-not-found error. -/
theorem C7_store_erase_get (v : Vault) (id : String) (k : Bytes) :
    Zerorize (Store v id k) id =
      .ok (deleteKey (zerorizeOverwrite (Store v id k) id) id) ∧
    (∃ z, zerorizeOverwrite (Store v id k) id id = some z ∧
       z.length = k.length ∧ ∀ b ∈ z, b = 0) ∧
    Get (deleteKey (zerorizeOverwrite (Store v id k) id) id) id =
      .error "key not found" := by
  refine ⟨?_, ⟨k.map fun _ => 0, ?_, ?_, ?_⟩, ?_⟩ <;>
    simp [Zerorize, Store, zerorizeOverwrite, deleteKey, Get]

/-- C8: `GenerateKey` derives the account id as the hex encoding of the
public key (64 characters for a 32-byte public key), stores the private
key under that id, and the returned `Account` carries only the public
identifier — it is independent of the private key material. -/
theorem C8_generate_key (pubKey privKey : Bytes) (v : Vault)
    (hlen : pubKey.length = 32) :
    (GenerateKey pubKey privKey v).1 = ⟨hexEncodeToString pubKey⟩ ∧
    (GenerateKey pubKey privKey v).1.PublicKey.length = 64 ∧
    (GenerateKey pubKey privKey v).2 (hexEncodeToString pubKey) = some privKey ∧
    (∀ otherPriv : Bytes,
       (GenerateKey pubKey otherPriv v).1 = (GenerateKey pubKey privKey v).1) := by
  refine ⟨rfl, ?_, by simp [GenerateKey, Store], fun _ => rfl⟩
  show (hexEncodeToString pubKey).length = 64
  rw [hexEncodeToString_length, hlen]

/-- Witness for C8 at a concrete 32-byte public key. -/
theorem C8_generate_key_witness :
    (GenerateKey (List.replicate 32 0) demoKey emptyVault).1 =
      ⟨hexEncodeToString (List.replicate 32 0)⟩ ∧
    (GenerateKey (List.replicate 32 0) demoKey emptyVault).1.PublicKey.length = 64 ∧
    (GenerateKey (List.replicate 32 0) demoKey emptyVault).2
        (hexEncodeToString (List.replicate 32 0)) = some demoKey ∧
    (∀ otherPriv : Bytes,
       (GenerateKey (List.replicate 32 0) otherPriv emptyVault).1 =
         (GenerateKey (List.replicate 32 0) demoKey emptyVault).1) :=
  C8_generate_key (List.replicate 32 0) demoKey emptyVault (by decide)

/-- C10: in every outcome of `SignTransaction` — success, validation
failure, decode failure, not-found, and the recovered-panic path — the
returned `TransactionResult` carries `KeyID` equal to the request's
`KeyID` (the named return is assigned `result.KeyID = req.KeyID` before
any fallible step). -/
theorem C10_keyid_preserved (edSign : Bytes → Bytes → Except String Bytes)
    (v : Vault) (req : TransactionRequest) :
    (SignTransaction edSign v req).1.KeyID = req.KeyID :=
  (signTransaction_shape edSign v req).1

/-- C1: after `GenerateKey` stores a fresh key, `SignTransaction` with the
returned id and a well-formed payload succeeds exactly once — the first
call returns the signature with a clean error and a vault in which the
id is no longer resolvable (`Get` fails with the key-not-found error),
and a second identical call fails with the not-found error leaving the
vault unchanged. -/
theorem C1_sign_exactly_once (edSign : Bytes → Bytes → Except String Bytes)
    (pubKey privKey : Bytes) (v : Vault) (payload : String) (raw sig : Bytes)
    (hpub : pubKey ≠ [])
    (hpay : payload ≠ "")
    (hdec : base64DecodeString payload = some raw)
    (hsign : edSign privKey raw = .ok sig) :
    ∃ v2,
      SignTransaction edSign (GenerateKey pubKey privKey v).2
          ⟨(GenerateKey pubKey privKey v).1.PublicKey, payload⟩ =
        ({ KeyID := (GenerateKey pubKey privKey v).1.PublicKey,
           Signature := base64EncodeToString sig,
           BroadcastStatus := "Signed and Ready" }, none, v2) ∧
      Get v2 (GenerateKey pubKey privKey v).1.PublicKey =
        .error "key not found" ∧
      SignTransaction edSign v2
          ⟨(GenerateKey pubKey privKey v).1.PublicKey, payload⟩ =
        ({ KeyID := (GenerateKey pubKey privKey v).1.PublicKey },
         some SignErr.notFoundError, v2) := by
  have hid : (GenerateKey pubKey privKey v).1.PublicKey = hexEncodeToString pubKey := rfl
  have hv1 : (GenerateKey pubKey privKey v).2 = Store v (hexEncodeToString pubKey) privKey := rfl
  rw [hid, hv1]
  have hval : ¬(hexEncodeToString pubKey = "" ∨ payload = "") := by
    simp [hexEncodeToString_ne_empty pubKey hpub, hpay]
  have hget : Store v (hexEncodeToString pubKey) privKey (hexEncodeToString pubKey) =
      some privKey := by simp [Store]
  refine ⟨deleteKey (zerorizeOverwrite (Store v (hexEncodeToString pubKey) privKey)
    (hexEncodeToString pubKey)) (hexEncodeToString pubKey), ?_, ?_, ?_⟩
  · simp [SignTransaction,
      body_eq_success edSign (Store v (hexEncodeToString pubKey) privKey)
        ⟨hexEncodeToString pubKey, payload⟩ raw privKey sig hval hdec hget hsign]
  · simp [Get, deleteKey]
  · have hgone : deleteKey (zerorizeOverwrite (Store v (hexEncodeToString pubKey) privKey)
        (hexEncodeToString pubKey)) (hexEncodeToString pubKey) (hexEncodeToString pubKey) =
        none := by simp [deleteKey]
    simp [SignTransaction,
      body_eq_notfound edSign _ ⟨hexEncodeToString pubKey, payload⟩ raw hval hdec hgone]

/-- Witness for C1: a concrete 32-byte public key, the payload
`"dGVzdA=="`, and a signing primitive returning 64 zero bytes. -/
theorem C1_sign_exactly_once_witness :
    ∃ v2,
      SignTransaction edSignZeros
          (GenerateKey (List.replicate 32 0) demoKey emptyVault).2
          ⟨(GenerateKey (List.replicate 32 0) demoKey emptyVault).1.PublicKey,
           "dGVzdA=="⟩ =
        ({ KeyID := (GenerateKey (List.replicate 32 0) demoKey emptyVault).1.PublicKey,
           Signature := base64EncodeToString (List.replicate 64 0),
           BroadcastStatus := "Signed and Ready" }, none, v2) ∧
      Get v2 (GenerateKey (List.replicate 32 0) demoKey emptyVault).1.PublicKey =
        .error "key not found" ∧
      SignTransaction edSignZeros v2
          ⟨(GenerateKey (List.replicate 32 0) demoKey emptyVault).1.PublicKey,
           "dGVzdA=="⟩ =
        ({ KeyID := (GenerateKey (List.replicate 32 0) demoKey emptyVault).1.PublicKey },
         some SignErr.notFoundError, v2) :=
  C1_sign_exactly_once edSignZeros (List.replicate 32 0) demoKey emptyVault
    "dGVzdA==" [116, 101, 115, 116] (List.replicate 64 0)
    (by decide) (by decide) (by decide) rfl

/-- C3: a panic raised inside the signing sequence (modelled at the signing
primitive, the only panicking step) is caught by the deferred `recover`
at the service boundary: `SignTransaction` returns a normal result whose
`Error` is the fixed generic message — independent of the panic value —
classified as the internal (panic) error, with the named-return fields
as assigned before the fault (`KeyID` set, no signature) and the vault
as it was at the fault; no panic propagates past the boundary, since the
handler totalises every `.error` of the body. -/
theorem C3_panic_contained (edSign : Bytes → Bytes → Except String Bytes)
    (v : Vault) (req : TransactionRequest) (p : String)
    (r : TransactionResult) (pv : Vault)
    (hpanic : signTransactionBody edSign v req = .error (p, r, pv)) :
    SignTransaction edSign v req =
      ({ r with Error := "Internal Signing Error, Try again later" },
       some SignErr.panicError, pv) ∧
    r = { KeyID := req.KeyID } ∧ pv = v := by
  refine ⟨by simp [SignTransaction, hpanic], ?_⟩
  by_cases hval : req.KeyID = "" ∨ req.UnsignedTxData = ""
  · rw [body_eq_validation edSign v req hval] at hpanic
    exact absurd hpanic (by simp)
  · cases hdec : base64DecodeString req.UnsignedTxData with
    | none =>
      rw [body_eq_decode edSign v req hval hdec] at hpanic
      exact absurd hpanic (by simp)
    | some raw =>
      cases hget : v req.KeyID with
      | none =>
        rw [body_eq_notfound edSign v req raw hval hdec hget] at hpanic
        exact absurd hpanic (by simp)
      | some pk =>
        cases hsign : edSign pk raw with
        | error p2 =>
          rw [body_eq_panic edSign v req raw pk p2 hval hdec hget hsign] at hpanic
          have := hpanic.symm
          simp only [Except.error.injEq, Prod.mk.injEq] at this
          exact ⟨this.2.1, this.2.2⟩
        | ok sig =>
          rw [body_eq_success edSign v req raw pk sig hval hdec hget hsign] at hpanic
          exact absurd hpanic (by simp)

/-- Witness for C3: the concrete panicking primitive on a stored key. -/
theorem C3_panic_contained_witness :
    SignTransaction edSignPanicDemo demoVault demoReq =
      ({ KeyID := "6b31", Error := "Internal Signing Error, Try again later" },
       some SignErr.panicError, demoVault) := by
  have h := C3_panic_contained edSignPanicDemo demoVault demoReq
    "runtime error: invalid memory address or nil pointer dereference"
    { KeyID := "6b31" } demoVault rfl
  exact h.1

/-- C2 as stated is false: an internal fault (a recovered panic in the
signing primitive) is delivered by `handleTxSign` with status 400 — a
client-error status, not a server-attributable (5xx) one. -/
theorem C2_status_cex :
    (SignTransaction edSignPanicDemo demoVault demoReq).2.1 =
      some SignErr.panicError ∧
    (txSignPipeline edSignPanicDemo demoVault demoReq).1.status = 400 ∧
    ¬ 500 ≤ (txSignPipeline edSignPanicDemo demoVault demoReq).1.status :=
  ⟨by decide, by decide, by decide⟩

/-- C2 (amended): `handleTxSign` reports every `SignTransaction` failure —
validation, decode, not-found, and internal faults alike — with the
client-error status 400; only the deadline arm is server-attributable,
with the gateway-timeout status 504; a clean result gets 200; and no
failure path carries key material (the failing result's `Signature` is
empty). -/
theorem C2_status_mapping (edSign : Bytes → Bytes → Except String Bytes)
    (v : Vault) (req : TransactionRequest) :
    ((SignTransaction edSign v req).2.1 ≠ none →
       (txSignPipeline edSign v req).1.status = 400 ∧
       (SignTransaction edSign v req).1.Signature = "") ∧
    ((SignTransaction edSign v req).2.1 = none →
       (txSignPipeline edSign v req).1.status = 200) ∧
    (handleTxSign .timedOut).status = 504 := by
  refine ⟨?_, ?_, rfl⟩
  · intro hne
    refine ⟨?_, (signTransaction_shape edSign v req).2.2 hne⟩
    cases herr : (SignTransaction edSign v req).2.1 with
    | none => exact absurd herr hne
    | some e =>
      simp [txSignPipeline, handleTxSign, deliverResult, herr, errMessage_ne_empty e]
  · intro hnone
    have hclean := (signTransaction_shape edSign v req).2.1 hnone
    simp [txSignPipeline, handleTxSign, deliverResult, hnone, hclean]

/-- Witness for C2 (amended): the panic path maps to 400 with an empty
signature, the success path to 200. -/
theorem C2_status_mapping_witness :
    ((txSignPipeline edSignPanicDemo demoVault demoReq).1.status = 400 ∧
     (SignTransaction edSignPanicDemo demoVault demoReq).1.Signature = "") ∧
    (txSignPipeline edSignZeros demoVault demoReq).1.status = 200 :=
  ⟨(C2_status_mapping edSignPanicDemo demoVault demoReq).1 (by decide),
   (C2_status_mapping edSignZeros demoVault demoReq).2.1 (by decide)⟩

/-- Safety invariant of the handoff protocol: a waiter that wrote the
timeout response did so after the deadline (so `ctxDone` stays set), and
a waiter holding a result got it from the rendezvous, which also retired
the producer. -/
theorem coordReachable_inv (r : TransactionResult) (s : CoordState)
    (h : CoordReachable r s) :
    (s.waiter = .timedOutResp → s.ctxDone = true) ∧
    (∀ res, s.waiter = .gotResult res → res = r ∧ s.producer = .finished) := by
  induction h with
  | init => simp [coordInit]
  | step s1 s2 hr hstep ih =>
    cases hstep with
    | deadline hd =>
      exact ⟨fun _ => rfl, fun res hres => ih.2 res hres⟩
    | finishWork hp =>
      refine ⟨fun hw => ih.1 hw, fun res hres => ?_⟩
      have hfin := (ih.2 res hres).2
      rw [hp] at hfin
      exact absurd hfin (by simp)
    | handoff hp hw =>
      refine ⟨fun hcontra => ?_, fun res hres => ?_⟩
      · exact absurd hcontra (by simp)
      · simp only [WaiterState.gotResult.injEq] at hres
        exact ⟨hres.symm, rfl⟩
    | abandonSend hp hd =>
      exact ⟨fun _ => hd, fun res hres => ⟨(ih.2 res hres).1, rfl⟩⟩
    | timeoutResp hw hd =>
      refine ⟨fun _ => hd, fun res hres => ?_⟩
      exact absurd hres (by simp)

/-- C9: in every reachable state of the `handleTxSign` deadline/handoff
protocol, (a) once the deadline has fired a still-waiting caller can
immediately take the `ctx.Done()` arm and return the timeout outcome,
which maps to the gateway-timeout status 504; and (b) a signing
goroutine at its handoff `select` always has an enabled exit — the
rendezvous if the caller still waits, otherwise the `ctx.Done()` arm
(the waiter only ever leaves without the result after the deadline, and
`ctxDone` never resets) — so the abandoned producer never blocks
forever. -/
theorem C9_timeout_nonblocking (r : TransactionResult) (s : CoordState)
    (h : CoordReachable r s) :
    (s.ctxDone = true → s.waiter = .waiting →
       CoordStep r s { s with waiter := .timedOutResp } ∧
       (handleTxSign .timedOut).status = 504) ∧
    (s.producer = .handing →
       ∃ s2, CoordStep r s s2 ∧ s2.producer = .finished) := by
  constructor
  · intro hd hw
    exact ⟨CoordStep.timeoutResp s hw hd, rfl⟩
  · intro hp
    cases hw : s.waiter with
    | waiting => exact ⟨_, CoordStep.handoff s hp hw, rfl⟩
    | gotResult res =>
      have hfin := ((coordReachable_inv r s h).2 res hw).2
      rw [hfin] at hp
      exact absurd hp (by simp)
    | timedOutResp =>
      have hd := (coordReachable_inv r s h).1 hw
      exact ⟨_, CoordStep.abandonSend s hp hd, rfl⟩

/-- Witness for C9: the state in which the deadline fired, the caller
already wrote the timeout response, and the signing goroutine then
reached its handoff attempt — the abandoned producer still has an
enabled exit step. -/
theorem C9_timeout_nonblocking_witness :
    ∃ s2, CoordStep resDefault ⟨true, .handing, .timedOutResp⟩ s2 ∧
      s2.producer = .finished := by
  have h0 : CoordReachable resDefault coordInit := .init
  have h1 := CoordReachable.step _ _ h0 (CoordStep.deadline coordInit rfl)
  have h2 := CoordReachable.step _ _ h1 (CoordStep.timeoutResp _ rfl rfl)
  have h3 := CoordReachable.step _ _ h2 (CoordStep.finishWork _ rfl)
  exact (C9_timeout_nonblocking resDefault ⟨true, .handing, .timedOutResp⟩ h3).2 rfl

end StsSvc
